import Mathlib

/-!
Formal model of the flight-alert repository.

The development shallowly embeds the three modules the claims are about:
* `src/lib/opensky-api.ts` (file `src/unnamed/part_001`, first half): state-vector
  parsing, haversine distance, bounding-box radius query;
* `src/lib/hexdb-api.ts` (file `src/unnamed/part_001`, second half): the memoised
  type resolver, batch resolution, type-code tables;
* `src/hooks/use-flight-tracker.ts`: the polling alert engine with its
  presence/alerted novelty-tracking sets.

JavaScript `Map`s and `Record`s are modelled as association lists looked up from
the front (so prepending models `Map.set`'s overwrite semantics), JS `Set`s of
identifiers as duplicate-free `List String`, nullable numbers as `Option ℝ`, and
fallible network transports as explicit `Except`/oracle parameters.
-/

namespace FlightAlert

/- Classical decidability is only used to express the JS truthiness tests on
exact reals; every identifier-level computation below stays executable, and the
low instance priority keeps `decide` on computable instances. -/
open Classical

/-- Association-list lookup, modelling `Map.get` / JS record subscripting.
The first binding for a key wins, so prepending a pair models `Map.set`. -/
def alookup {β : Type} (k : String) : List (String × β) → Option β
  | [] => none
  | (a, b) :: rest => if k = a then some b else alookup k rest

/-! ## Geometry (`opensky-api.ts`)

JS `number`s are modelled as exact reals; `Math.atan2 y x` is the argument of
the complex number `x + y*i`, which has the same value and the same principal
range `(-π, π]`. -/

noncomputable def deg2rad (x : ℝ) : ℝ := x * Real.pi / 180

noncomputable def atan2 (y x : ℝ) : ℝ := Complex.arg ⟨x, y⟩

/-- Local `a` of `calculateDistance` (lines 138-141 of `opensky-api.ts`):
`sin(dLat/2)² + cos(lat1 rad)·cos(lat2 rad)·sin(dLon/2)²`. -/
noncomputable def havA (lat1 lon1 lat2 lon2 : ℝ) : ℝ :=
  Real.sin (deg2rad (lat2 - lat1) / 2) * Real.sin (deg2rad (lat2 - lat1) / 2) +
    Real.cos (deg2rad lat1) * Real.cos (deg2rad lat2) *
      (Real.sin (deg2rad (lon2 - lon1) / 2) * Real.sin (deg2rad (lon2 - lon1) / 2))

/-- `calculateDistance(lat1, lon1, lat2, lon2)`: haversine distance in km,
`R * 2 * atan2(sqrt a, sqrt (1 - a))` with Earth radius `R = 6371`. -/
noncomputable def calculateDistance (lat1 lon1 lat2 lon2 : ℝ) : ℝ :=
  6371 * (2 * atan2 (Real.sqrt (havA lat1 lon1 lat2 lon2))
    (Real.sqrt (1 - havA lat1 lon1 lat2 lon2)))

/-! ## State-vector parsing (`opensky-api.ts`) -/

/-- The raw positional state array of the geo feed, with its fields named by
position (`state[0]`..`state[17]`). `none` models an absent or `null` entry. -/
structure RawState where
  icao24 : String
  callsign : Option String
  origin_country : String
  time_position : Option ℝ
  last_contact : ℝ
  longitude : Option ℝ
  latitude : Option ℝ
  baro_altitude : Option ℝ
  on_ground : Bool
  velocity : Option ℝ
  true_track : Option ℝ
  vertical_rate : Option ℝ
  sensors : Option (List ℝ)
  geo_altitude : Option ℝ
  squawk : Option String
  spi : Bool
  position_source : ℝ
  category : Option ℝ

/-- The parsed `Aircraft` interface of `opensky-api.ts`. -/
structure Aircraft where
  icao24 : String
  callsign : Option String
  origin_country : String
  time_position : Option ℝ
  last_contact : ℝ
  longitude : Option ℝ
  latitude : Option ℝ
  baro_altitude : Option ℝ
  on_ground : Bool
  velocity : Option ℝ
  true_track : Option ℝ
  vertical_rate : Option ℝ
  sensors : Option (List ℝ)
  geo_altitude : Option ℝ
  squawk : Option String
  spi : Bool
  position_source : ℝ
  category : Option ℝ

/-- JS `x || undefined` for a nullable number: `null`/`undefined` and the falsy
number `0` both become `undefined`. -/
noncomputable def jsNumOr (v : Option ℝ) : Option ℝ :=
  match v with
  | none => none
  | some x => if x = 0 then none else some x

/-- JS `s || undefined` for a nullable string: `null`/`undefined` and the falsy
empty string become `undefined`. -/
def jsStrOr (v : Option String) : Option String :=
  match v with
  | none => none
  | some s => if s = "" then none else some s

/-- `parseAircraft(state)` (lines 54-75 of `opensky-api.ts`). Numeric fields go
through `state[i] || undefined` (`jsNumOr`), the callsign through
`state[1]?.trim() || undefined`, the squawk through `state[14] || undefined`;
`sensors` is an array, which is truthy even when empty, so only `null` maps to
`undefined`. -/
noncomputable def parseAircraft (state : RawState) : Aircraft :=
  { icao24 := state.icao24
    callsign := jsStrOr (state.callsign.map String.trim)
    origin_country := state.origin_country
    time_position := jsNumOr state.time_position
    last_contact := state.last_contact
    longitude := jsNumOr state.longitude
    latitude := jsNumOr state.latitude
    baro_altitude := jsNumOr state.baro_altitude
    on_ground := state.on_ground
    velocity := jsNumOr state.velocity
    true_track := jsNumOr state.true_track
    vertical_rate := jsNumOr state.vertical_rate
    sensors := state.sensors
    geo_altitude := jsNumOr state.geo_altitude
    squawk := jsStrOr state.squawk
    spi := state.spi
    position_source := state.position_source
    category := jsNumOr state.category }

/-- `getStatesInArea(boundingBox)` (lines 77-97 of `opensky-api.ts`), with the
transport made explicit: `.error` models any thrown/rejected request (the
`catch` branch), `.ok none` models a response without a truthy `states` field.
Both return the empty list; otherwise every raw state array is parsed. -/
noncomputable def getStatesInArea
    (response : Except String (Option (List RawState))) : List Aircraft :=
  match response with
  | .error _ => []
  | .ok none => []
  | .ok (some states) => states.map parseAircraft

/-- The filter predicate of `getAircraftInRadius` (lines 151-155): the parsed
latitude and longitude must be truthy (present and nonzero) and the haversine
distance to the centre must be at most the radius. -/
def inRadiusPred (lat lon radiusKm : ℝ) (plane : Aircraft) : Prop :=
  ∃ plat plon, plane.latitude = some plat ∧ plane.longitude = some plon ∧
    plat ≠ 0 ∧ plon ≠ 0 ∧ calculateDistance lat lon plat plon ≤ radiusKm

/-- `getAircraftInRadius(lat, lon, radiusKm)` (lines 146-156), parametrised by
the list of aircraft the bounding-box fetch returned. -/
noncomputable def getAircraftInRadius (lat lon radiusKm : ℝ)
    (fetched : List Aircraft) : List Aircraft :=
  fetched.filter fun plane => decide (inRadiusPred lat lon radiusKm plane)

/-! ## Type resolver (`hexdb-api.ts`)

The module-level `aircraftCache` map and the network are made explicit: a call
takes the cache as state, and the transport is a pure `oracle` where `some r`
models an HTTP 200 with truthy data and `none` models a 404, timeout, falsy
data or any other error (all of which the source collapses into caching
`null`).  The third component of the result counts the network fetches the
call issued (0 or 1). -/

/-- The `HexDBResponse` interface. -/
structure HexDBResponse where
  ICAOTypeCode : Option String
  Manufacturer : Option String
  ModeS : Option String
  OperatorFlagCode : Option String
  RegisteredOwners : Option String
  Registration : Option String
  «Type» : Option String
deriving DecidableEq

/-- The state of the module-level `aircraftCache : Map<string, HexDBResponse | null>`. -/
abbrev HexCache : Type := List (String × Option HexDBResponse)

/-- `getAircraftInfo(icao24)` (lines 372-396 of `hexdb-api.ts`): return the
cached record (a cached `null` included) without touching the network;
otherwise fetch once, cache the outcome — response data on success, `null` on
404/error — and return it. -/
def getAircraftInfo (oracle : String → Option HexDBResponse) (icao24 : String)
    (cache : HexCache) : Option HexDBResponse × HexCache × Nat :=
  match alookup icao24 cache with
  | some v => (v, cache, 0)
  | none => (oracle icao24, (icao24, oracle icao24) :: cache, 1)

/-- Number of network fetches issued for `target` by a sequence of awaited
`getAircraftInfo` calls, threading the cache through. -/
def fetchCountFor (oracle : String → Option HexDBResponse) :
    List String → HexCache → String → Nat
  | [], _, _ => 0
  | id :: rest, cache, target =>
    (if id = target then (getAircraftInfo oracle id cache).2.2 else 0) +
      fetchCountFor oracle rest (getAircraftInfo oracle id cache).2.1 target

/-- Fixed-size chunking of the identifier list (the `for (i += batchSize)` loop
of `getMultipleAircraftInfo`, `batchSize = 10`), written with an explicit fuel
equal to the list length so that it computes by reduction. -/
def chunkAux : Nat → List String → List (List String)
  | 0, _ => []
  | _, [] => []
  | fuel + 1, l => l.take 10 :: chunkAux fuel (l.drop 10)

/-- One chunk of `getMultipleAircraftInfo`: resolve each identifier and record
`results.set(icao24, info)`. -/
def runBatch (oracle : String → Option HexDBResponse) :
    List String → HexCache → List (String × Option HexDBResponse) →
      HexCache × List (String × Option HexDBResponse)
  | [], cache, results => (cache, results)
  | id :: rest, cache, results =>
    runBatch oracle rest (getAircraftInfo oracle id cache).2.1
      ((id, (getAircraftInfo oracle id cache).1) :: results)

/-- Folding `runBatch` over the chunks (the outer loop of
`getMultipleAircraftInfo`; the inter-chunk 100 ms pause has no observable
effect on the cache or the result map). -/
def runChunks (oracle : String → Option HexDBResponse) :
    List (List String) → HexCache → List (String × Option HexDBResponse) →
      HexCache × List (String × Option HexDBResponse)
  | [], cache, results => (cache, results)
  | batch :: batches, cache, results =>
    runChunks oracle batches (runBatch oracle batch cache results).1
      (runBatch oracle batch cache results).2

/-- `getMultipleAircraftInfo(icao24List)` (lines 399-422 of `hexdb-api.ts`). -/
def getMultipleAircraftInfo (oracle : String → Option HexDBResponse)
    (icao24List : List String) (cache : HexCache) :
    HexCache × List (String × Option HexDBResponse) :=
  runChunks oracle (chunkAux icao24List.length icao24List) cache []

/-! ## Static model tables -/

/-- One value of the `AIRCRAFT_MODELS` record. -/
structure AircraftModel where
  name : String
  icao24Prefixes : List String
deriving DecidableEq

/-- Rows 1 to 20 of the table, split to keep elaboration linear. -/
def aircraftModelsRows0 : List (String × AircraftModel) := [
  ("B707", ⟨"Boeing 707", ["B703", "B707", "B720"]⟩),
  ("B717", ⟨"Boeing 717", ["B712", "B717"]⟩),
  ("B727", ⟨"Boeing 727", ["B721", "B722", "B727"]⟩),
  ("B737", ⟨"Boeing 737", ["B731", "B732", "B733", "B734", "B735", "B736", "B737", "B738", "B739", "B37M", "B38M", "B39M", "B3XM"]⟩),
  ("B747", ⟨"Boeing 747", ["B741", "B742", "B743", "B744", "B748", "B74S", "B74R", "BLCF"]⟩),
  ("B757", ⟨"Boeing 757", ["B752", "B753"]⟩),
  ("B767", ⟨"Boeing 767", ["B762", "B763", "B764"]⟩),
  ("B777", ⟨"Boeing 777", ["B772", "B773", "B77L", "B77W", "B779", "B77X"]⟩),
  ("B787", ⟨"Boeing 787 Dreamliner", ["B788", "B789", "B78X"]⟩),
  ("A220", ⟨"Airbus A220", ["BCS1", "BCS3", "A221", "A223"]⟩),
  ("A300", ⟨"Airbus A300", ["A30B", "A306", "A3ST"]⟩),
  ("A310", ⟨"Airbus A310", ["A310", "A306"]⟩),
  ("A318", ⟨"Airbus A318", ["A318"]⟩),
  ("A319", ⟨"Airbus A319", ["A319", "A19N"]⟩),
  ("A320", ⟨"Airbus A320", ["A320", "A20N"]⟩),
  ("A321", ⟨"Airbus A321", ["A321", "A21N"]⟩),
  ("A330", ⟨"Airbus A330", ["A332", "A333", "A338", "A339"]⟩),
  ("A340", ⟨"Airbus A340", ["A342", "A343", "A345", "A346"]⟩),
  ("A350", ⟨"Airbus A350", ["A359", "A35K"]⟩),
  ("A380", ⟨"Airbus A380", ["A388"]⟩)]

/-- Rows 21 to 40 of the table, split to keep elaboration linear. -/
def aircraftModelsRows1 : List (String × AircraftModel) := [
  ("A400M", ⟨"Airbus A400M Atlas", ["A400"]⟩),
  ("E120", ⟨"Embraer EMB-120 Brasilia", ["E120"]⟩),
  ("E135", ⟨"Embraer ERJ-135", ["E135"]⟩),
  ("E145", ⟨"Embraer ERJ-145", ["E145"]⟩),
  ("E170", ⟨"Embraer E-Jet E170", ["E170"]⟩),
  ("E175", ⟨"Embraer E-Jet E175", ["E175"]⟩),
  ("E190", ⟨"Embraer E-Jet E190", ["E190"]⟩),
  ("E195", ⟨"Embraer E-Jet E195", ["E195"]⟩),
  ("E290", ⟨"Embraer E190-E2", ["E290"]⟩),
  ("E295", ⟨"Embraer E195-E2", ["E295"]⟩),
  ("CRJ1", ⟨"Bombardier CRJ100", ["CRJ1"]⟩),
  ("CRJ2", ⟨"Bombardier CRJ200", ["CRJ2"]⟩),
  ("CRJ7", ⟨"Bombardier CRJ700", ["CRJ7"]⟩),
  ("CRJ9", ⟨"Bombardier CRJ900", ["CRJ9"]⟩),
  ("CRJX", ⟨"Bombardier CRJ1000", ["CRJX"]⟩),
  ("DH8A", ⟨"Bombardier Dash 8-100", ["DH8A"]⟩),
  ("DH8B", ⟨"Bombardier Dash 8-200", ["DH8B"]⟩),
  ("DH8C", ⟨"Bombardier Dash 8-300", ["DH8C"]⟩),
  ("DH8D", ⟨"Bombardier Dash 8-400", ["DH8D"]⟩),
  ("AT42", ⟨"ATR 42", ["AT42"]⟩)]

/-- Rows 41 to 60 of the table, split to keep elaboration linear. -/
def aircraftModelsRows2 : List (String × AircraftModel) := [
  ("AT43", ⟨"ATR 42-300", ["AT43"]⟩),
  ("AT44", ⟨"ATR 42-400", ["AT44"]⟩),
  ("AT45", ⟨"ATR 42-500", ["AT45"]⟩),
  ("AT46", ⟨"ATR 42-600", ["AT46"]⟩),
  ("AT72", ⟨"ATR 72", ["AT72"]⟩),
  ("AT73", ⟨"ATR 72-500", ["AT73"]⟩),
  ("AT75", ⟨"ATR 72-600", ["AT75"]⟩),
  ("F27", ⟨"Fokker 27", ["F27"]⟩),
  ("F28", ⟨"Fokker 28", ["F28"]⟩),
  ("F50", ⟨"Fokker 50", ["F50"]⟩),
  ("F70", ⟨"Fokker 70", ["F70"]⟩),
  ("F100", ⟨"Fokker 100", ["F100"]⟩),
  ("DC3", ⟨"Douglas DC-3", ["DC3"]⟩),
  ("DC6", ⟨"Douglas DC-6", ["DC6"]⟩),
  ("DC8", ⟨"Douglas DC-8", ["DC81", "DC82", "DC83", "DC86", "DC87"]⟩),
  ("DC9", ⟨"Douglas DC-9", ["DC91", "DC92", "DC93", "DC94", "DC95"]⟩),
  ("MD11", ⟨"McDonnell Douglas MD-11", ["MD11"]⟩),
  ("MD80", ⟨"McDonnell Douglas MD-80", ["MD81", "MD82", "MD83", "MD87", "MD88"]⟩),
  ("MD90", ⟨"McDonnell Douglas MD-90", ["MD90"]⟩),
  ("L188", ⟨"Lockheed Electra", ["L188"]⟩)]

/-- Rows 61 to 80 of the table, split to keep elaboration linear. -/
def aircraftModelsRows3 : List (String × AircraftModel) := [
  ("L1011", ⟨"Lockheed L-1011 TriStar", ["L101"]⟩),
  ("C130", ⟨"Lockheed C-130 Hercules", ["C130", "L382"]⟩),
  ("C25A", ⟨"Cessna Citation CJ2", ["C25A"]⟩),
  ("C25B", ⟨"Cessna Citation CJ3", ["C25B"]⟩),
  ("C25C", ⟨"Cessna Citation CJ4", ["C25C"]⟩),
  ("C510", ⟨"Cessna Citation Mustang", ["C510"]⟩),
  ("C525", ⟨"Cessna Citation CJ1", ["C525"]⟩),
  ("C550", ⟨"Cessna Citation II", ["C550"]⟩),
  ("C560", ⟨"Cessna Citation V", ["C560"]⟩),
  ("C680", ⟨"Cessna Citation Sovereign", ["C680"]⟩),
  ("C750", ⟨"Cessna Citation X", ["C750"]⟩),
  ("GLF4", ⟨"Gulfstream IV", ["GLF4"]⟩),
  ("GLF5", ⟨"Gulfstream V", ["GLF5"]⟩),
  ("GLF6", ⟨"Gulfstream G650", ["GLF6"]⟩),
  ("H25B", ⟨"Hawker 800", ["H25B"]⟩),
  ("LJ35", ⟨"Learjet 35", ["LJ35"]⟩),
  ("LJ45", ⟨"Learjet 45", ["LJ45"]⟩),
  ("LJ60", ⟨"Learjet 60", ["LJ60"]⟩),
  ("C172", ⟨"Cessna 172", ["C172"]⟩),
  ("C182", ⟨"Cessna 182", ["C182"]⟩)]

/-- Rows 81 to 100 of the table, split to keep elaboration linear. -/
def aircraftModelsRows4 : List (String × AircraftModel) := [
  ("C206", ⟨"Cessna 206", ["C206"]⟩),
  ("C208", ⟨"Cessna 208 Caravan", ["C208"]⟩),
  ("PA28", ⟨"Piper Cherokee", ["PA28"]⟩),
  ("PA31", ⟨"Piper Navajo", ["PA31"]⟩),
  ("PA46", ⟨"Piper Malibu", ["PA46"]⟩),
  ("BE20", ⟨"Beechcraft King Air", ["BE20"]⟩),
  ("BE36", ⟨"Beechcraft Bonanza", ["BE36"]⟩),
  ("BE58", ⟨"Beechcraft Baron", ["BE58"]⟩),
  ("AN12", ⟨"Antonov An-12", ["AN12"]⟩),
  ("AN22", ⟨"Antonov An-22", ["AN22"]⟩),
  ("AN24", ⟨"Antonov An-24", ["AN24"]⟩),
  ("AN26", ⟨"Antonov An-26", ["AN26"]⟩),
  ("AN28", ⟨"Antonov An-28", ["AN28"]⟩),
  ("AN32", ⟨"Antonov An-32", ["AN32"]⟩),
  ("AN124", ⟨"Antonov An-124", ["A124"]⟩),
  ("AN225", ⟨"Antonov An-225 Mriya", ["A225"]⟩),
  ("IL76", ⟨"Ilyushin Il-76", ["IL76"]⟩),
  ("KC135", ⟨"Boeing KC-135 Stratotanker", ["KC135", "B752"]⟩),
  ("C17", ⟨"Boeing C-17 Globemaster III", ["C17"]⟩),
  ("C5", ⟨"Lockheed C-5 Galaxy", ["C5"]⟩)]

/-- Rows 101 to 120 of the table, split to keep elaboration linear. -/
def aircraftModelsRows5 : List (String × AircraftModel) := [
  ("KC10", ⟨"McDonnell Douglas KC-10 Extender", ["KC10", "DC10"]⟩),
  ("KC46", ⟨"Boeing KC-46 Pegasus", ["KC46"]⟩),
  ("A330MRTT", ⟨"Airbus A330 MRTT", ["A333"]⟩),
  ("C130J", ⟨"Lockheed C-130J Super Hercules", ["C130", "L382"]⟩),
  ("C295", ⟨"Airbus C295", ["C295"]⟩),
  ("CN235", ⟨"CASA CN-235", ["CN35"]⟩),
  ("C212", ⟨"CASA C-212 Aviocar", ["C212"]⟩),
  ("V22", ⟨"Bell Boeing V-22 Osprey", ["V22"]⟩),
  ("C27J", ⟨"Alenia C-27J Spartan", ["C27J"]⟩),
  ("MV22", ⟨"MV-22 Osprey (Marines)", ["MV22"]⟩),
  ("CV22", ⟨"CV-22 Osprey (Air Force)", ["CV22"]⟩),
  ("P3", ⟨"Lockheed P-3 Orion", ["P3"]⟩),
  ("P8", ⟨"Boeing P-8 Poseidon", ["P8"]⟩),
  ("E3", ⟨"Boeing E-3 Sentry AWACS", ["E3"]⟩),
  ("E2", ⟨"Northrop Grumman E-2 Hawkeye", ["E2"]⟩),
  ("RC135", ⟨"Boeing RC-135 Rivet Joint", ["RC35"]⟩),
  ("U2", ⟨"Lockheed U-2 Dragon Lady", ["U2"]⟩),
  ("F16", ⟨"General Dynamics F-16 Fighting Falcon", ["F16"]⟩),
  ("F15", ⟨"McDonnell Douglas F-15 Eagle", ["F15"]⟩),
  ("F18", ⟨"McDonnell Douglas F/A-18 Hornet", ["F18"]⟩)]

/-- Rows 121 to 140 of the table, split to keep elaboration linear. -/
def aircraftModelsRows6 : List (String × AircraftModel) := [
  ("F35", ⟨"Lockheed Martin F-35 Lightning II", ["F35"]⟩),
  ("A10", ⟨"Fairchild Republic A-10 Thunderbolt II", ["A10"]⟩),
  ("AV8B", ⟨"McDonnell Douglas AV-8B Harrier II", ["AV8B"]⟩),
  ("T6", ⟨"Beechcraft T-6 Texan II", ["T6"]⟩),
  ("T38", ⟨"Northrop T-38 Talon", ["T38"]⟩),
  ("T45", ⟨"McDonnell Douglas T-45 Goshawk", ["T45"]⟩),
  ("UH60", ⟨"Sikorsky UH-60 Black Hawk", ["UH60", "H60"]⟩),
  ("CH47", ⟨"Boeing CH-47 Chinook", ["CH47"]⟩),
  ("AH64", ⟨"Boeing AH-64 Apache", ["AH64"]⟩),
  ("UH1", ⟨"Bell UH-1 Iroquois (Huey)", ["UH1"]⟩),
  ("CH53", ⟨"Sikorsky CH-53 Sea Stallion", ["CH53"]⟩),
  ("SH60", ⟨"Sikorsky SH-60 Seahawk", ["SH60"]⟩),
  ("AS50", ⟨"Airbus H125 (AS350)", ["AS50"]⟩),
  ("AS55", ⟨"Airbus H155 (AS365)", ["AS55"]⟩),
  ("EC30", ⟨"Airbus H130", ["EC30"]⟩),
  ("EC35", ⟨"Airbus H135", ["EC35"]⟩),
  ("EC45", ⟨"Airbus H145", ["EC45"]⟩),
  ("B06", ⟨"Bell 206", ["B06"]⟩),
  ("B407", ⟨"Bell 407", ["B407"]⟩),
  ("B429", ⟨"Bell 429", ["B429"]⟩)]

/-- Rows 141 to 143 of the table, split to keep elaboration linear. -/
def aircraftModelsRows7 : List (String × AircraftModel) := [
  ("R22", ⟨"Robinson R22", ["R22"]⟩),
  ("R44", ⟨"Robinson R44", ["R44"]⟩),
  ("R66", ⟨"Robinson R66", ["R66"]⟩)]

/-- The `AIRCRAFT_MODELS` record (lines 160-341 of `opensky-api.ts`). -/
def AIRCRAFT_MODELS : List (String × AircraftModel) :=
  aircraftModelsRows0 ++ aircraftModelsRows1 ++ aircraftModelsRows2 ++ aircraftModelsRows3 ++ aircraftModelsRows4 ++ aircraftModelsRows5 ++ aircraftModelsRows6 ++ aircraftModelsRows7

/-- Rows 1 to 20 of the table, split to keep elaboration linear. -/
def typeMapRows0 : List (String × String) := [
  ("B703", "B707"),
  ("B707", "B707"),
  ("B720", "B707"),
  ("B712", "B717"),
  ("B717", "B717"),
  ("B721", "B727"),
  ("B722", "B727"),
  ("B727", "B727"),
  ("B731", "B737"),
  ("B732", "B737"),
  ("B733", "B737"),
  ("B734", "B737"),
  ("B735", "B737"),
  ("B736", "B737"),
  ("B737", "B737"),
  ("B738", "B737"),
  ("B739", "B737"),
  ("B37M", "B737"),
  ("B38M", "B737"),
  ("B39M", "B737")]

/-- Rows 21 to 40 of the table, split to keep elaboration linear. -/
def typeMapRows1 : List (String × String) := [
  ("B3XM", "B737"),
  ("B741", "B747"),
  ("B742", "B747"),
  ("B743", "B747"),
  ("B744", "B747"),
  ("B748", "B747"),
  ("B74S", "B747"),
  ("B74R", "B747"),
  ("BLCF", "B747"),
  ("B752", "B757"),
  ("B753", "B757"),
  ("B762", "B767"),
  ("B763", "B767"),
  ("B764", "B767"),
  ("B772", "B777"),
  ("B773", "B777"),
  ("B77L", "B777"),
  ("B77W", "B777"),
  ("B779", "B777"),
  ("B77X", "B777")]

/-- Rows 41 to 60 of the table, split to keep elaboration linear. -/
def typeMapRows2 : List (String × String) := [
  ("B788", "B787"),
  ("B789", "B787"),
  ("B78X", "B787"),
  ("BCS1", "A220"),
  ("BCS3", "A220"),
  ("A221", "A220"),
  ("A223", "A220"),
  ("A30B", "A300"),
  ("A306", "A300"),
  ("A3ST", "A300"),
  ("A310", "A310"),
  ("A318", "A318"),
  ("A319", "A319"),
  ("A19N", "A319"),
  ("A320", "A320"),
  ("A20N", "A320"),
  ("A321", "A321"),
  ("A21N", "A321"),
  ("A332", "A330"),
  ("A333", "A330")]

/-- Rows 61 to 80 of the table, split to keep elaboration linear. -/
def typeMapRows3 : List (String × String) := [
  ("A338", "A330"),
  ("A339", "A330"),
  ("A342", "A340"),
  ("A343", "A340"),
  ("A345", "A340"),
  ("A346", "A340"),
  ("A359", "A350"),
  ("A35K", "A350"),
  ("A388", "A380"),
  ("A400", "A400M"),
  ("E120", "E120"),
  ("E135", "E135"),
  ("E145", "E145"),
  ("E170", "E170"),
  ("E175", "E175"),
  ("E190", "E190"),
  ("E195", "E195"),
  ("E290", "E290"),
  ("E295", "E295"),
  ("CRJ1", "CRJ1")]

/-- Rows 81 to 100 of the table, split to keep elaboration linear. -/
def typeMapRows4 : List (String × String) := [
  ("CRJ2", "CRJ2"),
  ("CRJ7", "CRJ7"),
  ("CRJ9", "CRJ9"),
  ("CRJX", "CRJX"),
  ("DH8A", "DH8A"),
  ("DH8B", "DH8B"),
  ("DH8C", "DH8C"),
  ("DH8D", "DH8D"),
  ("AT42", "AT42"),
  ("AT43", "AT43"),
  ("AT44", "AT44"),
  ("AT45", "AT45"),
  ("AT46", "AT46"),
  ("AT72", "AT72"),
  ("AT73", "AT73"),
  ("AT75", "AT75"),
  ("F27", "F27"),
  ("F28", "F28"),
  ("F50", "F50"),
  ("F70", "F70")]

/-- Rows 101 to 120 of the table, split to keep elaboration linear. -/
def typeMapRows5 : List (String × String) := [
  ("F100", "F100"),
  ("DC3", "DC3"),
  ("DC6", "DC6"),
  ("DC81", "DC8"),
  ("DC82", "DC8"),
  ("DC83", "DC8"),
  ("DC86", "DC8"),
  ("DC87", "DC8"),
  ("DC91", "DC9"),
  ("DC92", "DC9"),
  ("DC93", "DC9"),
  ("DC94", "DC9"),
  ("DC95", "DC9"),
  ("MD11", "MD11"),
  ("MD81", "MD80"),
  ("MD82", "MD80"),
  ("MD83", "MD80"),
  ("MD87", "MD80"),
  ("MD88", "MD80"),
  ("MD90", "MD90")]

/-- Rows 121 to 140 of the table, split to keep elaboration linear. -/
def typeMapRows6 : List (String × String) := [
  ("L188", "L188"),
  ("L101", "L1011"),
  ("C130", "C130"),
  ("L382", "C130"),
  ("C25A", "C25A"),
  ("C25B", "C25B"),
  ("C25C", "C25C"),
  ("C510", "C510"),
  ("C525", "C525"),
  ("C550", "C550"),
  ("C560", "C560"),
  ("C680", "C680"),
  ("C750", "C750"),
  ("GLF4", "GLF4"),
  ("GLF5", "GLF5"),
  ("GLF6", "GLF6"),
  ("H25B", "H25B"),
  ("LJ35", "LJ35"),
  ("LJ45", "LJ45"),
  ("LJ60", "LJ60")]

/-- Rows 141 to 160 of the table, split to keep elaboration linear. -/
def typeMapRows7 : List (String × String) := [
  ("C172", "C172"),
  ("C182", "C182"),
  ("C206", "C206"),
  ("C208", "C208"),
  ("PA28", "PA28"),
  ("PA31", "PA31"),
  ("PA46", "PA46"),
  ("BE20", "BE20"),
  ("BE36", "BE36"),
  ("BE58", "BE58"),
  ("AN12", "AN12"),
  ("AN22", "AN22"),
  ("AN24", "AN24"),
  ("AN26", "AN26"),
  ("AN28", "AN28"),
  ("AN32", "AN32"),
  ("A124", "AN124"),
  ("A225", "AN225"),
  ("IL76", "IL76"),
  ("KC135", "KC135")]

/-- Rows 161 to 180 of the table, split to keep elaboration linear. -/
def typeMapRows8 : List (String × String) := [
  ("C17", "C17"),
  ("C5", "C5"),
  ("KC10", "KC10"),
  ("KC46", "KC46"),
  ("C295", "C295"),
  ("CN35", "CN235"),
  ("C212", "C212"),
  ("V22", "V22"),
  ("MV22", "MV22"),
  ("CV22", "CV22"),
  ("C27J", "C27J"),
  ("P3", "P3"),
  ("P8", "P8"),
  ("E3", "E3"),
  ("E2", "E2"),
  ("RC35", "RC135"),
  ("U2", "U2"),
  ("F16", "F16"),
  ("F15", "F15"),
  ("F18", "F18")]

/-- Rows 181 to 200 of the table, split to keep elaboration linear. -/
def typeMapRows9 : List (String × String) := [
  ("F35", "F35"),
  ("A10", "A10"),
  ("AV8B", "AV8B"),
  ("T6", "T6"),
  ("T38", "T38"),
  ("T45", "T45"),
  ("UH60", "UH60"),
  ("H60", "UH60"),
  ("CH47", "CH47"),
  ("AH64", "AH64"),
  ("UH1", "UH1"),
  ("CH53", "CH53"),
  ("SH60", "SH60"),
  ("AS50", "AS50"),
  ("AS55", "AS55"),
  ("EC30", "EC30"),
  ("EC35", "EC35"),
  ("EC45", "EC45"),
  ("B06", "B06"),
  ("B407", "B407")]

/-- Rows 201 to 204 of the table, split to keep elaboration linear. -/
def typeMapRows10 : List (String × String) := [
  ("B429", "B429"),
  ("R22", "R22"),
  ("R44", "R44"),
  ("R66", "R66")]

/-- The `typeMap` record inside `mapTypeToModel` (lines 454-559 of `hexdb-api.ts`). -/
def typeMap : List (String × String) :=
  typeMapRows0 ++ typeMapRows1 ++ typeMapRows2 ++ typeMapRows3 ++ typeMapRows4 ++ typeMapRows5 ++ typeMapRows6 ++ typeMapRows7 ++ typeMapRows8 ++ typeMapRows9 ++ typeMapRows10

/-- `mapTypeToModel(typeCode)` (lines 450-562 of `hexdb-api.ts`): a falsy
(absent or empty) type code yields `null`; otherwise `typeMap[typeCode] || null`
— the looked-up value, with a falsy (empty) value collapsing to `null`. -/
def mapTypeToModel (typeCode : Option String) : Option String :=
  match typeCode with
  | none => none
  | some code =>
    if code = "" then none
    else
      match alookup code typeMap with
      | some v => if v = "" then none else some v
      | none => none

/-! ## Alert engine (`use-flight-tracker.ts`)

One `fetchAircraft` poll cycle is modelled as a state transition on the two
`useRef` sets.  The per-aircraft data the cycle branches on is abstracted into
`PollAircraft`: `hasPos` is the truthiness of the parsed latitude and longitude
(line 56), `matches` is `matchedModel && alert.aircraftModels.includes(...)`
(line 73).  The fetch phase (lines 44-52) is an `Except` input: `.error` models
any rejection the outer `try` catches before the loop runs.  The notification
sink (toast plus browser notification, lines 80-96) is a `notify` parameter;
`notify icao = false` models the sink throwing, which the same outer `catch`
swallows after `alertedAircraftRef.current.add` has already run (line 77). -/

/-- Per-aircraft inputs of one poll-cycle iteration. -/
structure PollAircraft where
  icao24 : String
  hasPos : Bool
  «matches» : Bool
deriving DecidableEq

/-- The two novelty-tracking refs: `previousAircraftRef` and
`alertedAircraftRef` (lines 34-35). -/
structure TrackerState where
  previousAircraft : List String
  alertedAircraft : List String
deriving DecidableEq

/-- `Set.add`: insert an identifier unless already present. -/
def insertId (x : String) (l : List String) : List String :=
  if x ∈ l then l else x :: l

/-- Outcome of the `nearbyAircraft.map` loop (lines 55-112): whether it ran to
completion (`ok`), the local `currentAircraftSet`, the mutated
`alertedAircraftRef` contents, and the toasts that were delivered.  A `notify`
throw stops the loop with `ok := false`, keeping the mutations made so far. -/
structure LoopResult where
  ok : Bool
  current : List String
  alerted : List String
  notifs : List String
deriving DecidableEq

/-- The `nearbyAircraft.map` loop.  Per aircraft: skip it when the position is
not truthy (line 56); otherwise add it to the current set (line 58); when it
matches, is new relative to `prev`, and is not yet alerted (line 76), add it to
the alerted set (line 77) and fire the notification (lines 80-96). -/
def loopPlanes (prev : List String) (notify : String → Bool) :
    List PollAircraft → List String → List String → List String → LoopResult
  | [], c, a, n => ⟨true, c, a, n⟩
  | p :: rest, c, a, n =>
    if p.hasPos = true then
      if p.«matches» = true ∧ p.icao24 ∉ prev ∧ p.icao24 ∉ a then
        if notify p.icao24 = true then
          loopPlanes prev notify rest (insertId p.icao24 c) (insertId p.icao24 a)
            (n ++ [p.icao24])
        else ⟨false, insertId p.icao24 c, insertId p.icao24 a, n⟩
      else loopPlanes prev notify rest (insertId p.icao24 c) a n
    else loopPlanes prev notify rest c a n

/-- Result of one whole poll cycle. -/
structure CycleResult where
  state : TrackerState
  notifications : List String
  errorMsg : Option String
deriving DecidableEq

/-- One `fetchAircraft` poll cycle (lines 37-130).  On a fetch-phase error the
`catch` fires before any ref was touched.  On a completed loop, the alerted set
is cleaned of identifiers outside the current set (lines 115-119) and the
previous set is replaced by the current one (line 121).  On a loop aborted by a
`notify` throw, the `catch` surfaces the error; `previousAircraftRef` still
holds its old value but `alertedAircraftRef` keeps the in-loop mutations. -/
def fetchAircraft (notify : String → Bool)
    (fetchResult : Except String (List PollAircraft)) (st : TrackerState) :
    CycleResult :=
  match fetchResult with
  | .error msg => ⟨st, [], some msg⟩
  | .ok planes =>
    let r := loopPlanes st.previousAircraft notify planes [] st.alertedAircraft []
    if r.ok then
      ⟨⟨r.current, r.alerted.filter (fun i => i ∈ r.current)⟩, r.notifs, none⟩
    else
      ⟨⟨st.previousAircraft, r.alerted⟩, r.notifs, some "notification error"⟩

/-- A notification sink that never throws (the normal run of the program). -/
def okNotify : String → Bool := fun _ => true

/-- One successful-fetch poll cycle with a non-throwing sink. -/
def pollStep (planes : List PollAircraft) (st : TrackerState) : CycleResult :=
  fetchAircraft okNotify (.ok planes) st

/-- A sequence of poll cycles; returns the final state and the notification
batch of every cycle in order. -/
def runPolls : List (List PollAircraft) → TrackerState → TrackerState × List (List String)
  | [], st => (st, [])
  | poll :: rest, st =>
    let r := pollStep poll st
    let rs := runPolls rest r.state
    (rs.1, r.notifications :: rs.2)

/-- The identifier occurs in the poll's aircraft list with a truthy position,
so the cycle puts it in the presence set. -/
def presentWithPos (icao : String) (poll : List PollAircraft) : Prop :=
  ∃ p ∈ poll, p.icao24 = icao ∧ p.hasPos = true

/-- The identifier occurs in the poll's aircraft list with a truthy position
and a watchlist match. -/
def presentMatching (icao : String) (poll : List PollAircraft) : Prop :=
  ∃ p ∈ poll, p.icao24 = icao ∧ p.hasPos = true ∧ p.«matches» = true

/-! ## Concrete sample inputs used by counterexamples and witnesses -/

/-- A raw state vector whose longitude field is exactly the number 0. -/
def rawZeroLon : RawState :=
  { icao24 := "4ca1d2", callsign := some "TEST123", origin_country := "Sweden"
    time_position := some 1, last_contact := 2, longitude := some 0
    latitude := some 59, baro_altitude := some 1000, on_ground := false
    velocity := some 200, true_track := some 90, vertical_rate := some 1
    sensors := none, geo_altitude := some 1100, squawk := some "7000"
    spi := false, position_source := 0, category := some 1 }

/-- A raw state vector with nonzero numeric fields. -/
def rawOne : RawState :=
  { icao24 := "4ca1d3", callsign := some "TEST124", origin_country := "Sweden"
    time_position := some 1, last_contact := 2, longitude := some 1
    latitude := some 1, baro_altitude := some 1, on_ground := false
    velocity := some 1, true_track := some 1, vertical_rate := some 1
    sensors := none, geo_altitude := some 1, squawk := some "7000"
    spi := false, position_source := 0, category := some 1 }

/-- A parsed aircraft sitting exactly at latitude 1, longitude 1. -/
def planeOne : Aircraft :=
  { icao24 := "4ca1d4", callsign := some "TEST125", origin_country := "Sweden"
    time_position := some 1, last_contact := 2, longitude := some 1
    latitude := some 1, baro_altitude := some 1000, on_ground := false
    velocity := some 200, true_track := some 90, vertical_rate := some 1
    sensors := none, geo_altitude := some 1100, squawk := some "7000"
    spi := false, position_source := 0, category := some 1 }

/-! # Helper lemmas -/

theorem havA_comm (lat1 lon1 lat2 lon2 : ℝ) :
    havA lat1 lon1 lat2 lon2 = havA lat2 lon2 lat1 lon1 := by
  unfold havA deg2rad
  have h1 : (lat1 - lat2) * Real.pi / 180 / 2 = -((lat2 - lat1) * Real.pi / 180 / 2) := by
    ring
  have h2 : (lon1 - lon2) * Real.pi / 180 / 2 = -((lon2 - lon1) * Real.pi / 180 / 2) := by
    ring
  rw [h1, h2, Real.sin_neg, Real.sin_neg]
  ring

theorem havA_self (lat lon : ℝ) : havA lat lon lat lon = 0 := by
  unfold havA deg2rad
  simp

theorem atan2_zero_one : atan2 0 1 = 0 := by
  unfold atan2
  have h : (⟨1, 0⟩ : ℂ) = 1 := by
    apply Complex.ext <;> simp
  rw [h, Complex.arg_one]

theorem calculateDistance_comm (lat1 lon1 lat2 lon2 : ℝ) :
    calculateDistance lat1 lon1 lat2 lon2 = calculateDistance lat2 lon2 lat1 lon1 := by
  unfold calculateDistance
  rw [havA_comm]

theorem calculateDistance_self (lat lon : ℝ) : calculateDistance lat lon lat lon = 0 := by
  unfold calculateDistance
  rw [havA_self]
  simp [atan2_zero_one]

theorem jsNumOr_eq_none_iff (v : Option ℝ) :
    jsNumOr v = none ↔ v = none ∨ v = some 0 := by
  cases v with
  | none => simp [jsNumOr]
  | some x =>
    by_cases hx : x = 0 <;> simp [jsNumOr, hx]

theorem jsNumOr_some {x : ℝ} (hx : x ≠ 0) : jsNumOr (some x) = some x := by
  simp [jsNumOr, hx]

theorem inRadiusPred_of_none {lat lon radiusKm : ℝ} {plane : Aircraft}
    (h : plane.latitude = none ∨ plane.longitude = none) :
    ¬ inRadiusPred lat lon radiusKm plane := by
  rintro ⟨plat, plon, hlat, hlon, -⟩
  rcases h with h | h
  · rw [h] at hlat; exact Option.noConfusion hlat
  · rw [h] at hlon; exact Option.noConfusion hlon

theorem mem_getAircraftInRadius {lat lon radiusKm : ℝ} {fetched : List Aircraft}
    {plane : Aircraft} :
    plane ∈ getAircraftInRadius lat lon radiusKm fetched ↔
      plane ∈ fetched ∧ inRadiusPred lat lon radiusKm plane := by
  unfold getAircraftInRadius
  rw [List.mem_filter, decide_eq_true_eq]

/-! # Claim theorems -/

/-- Claim C6: for all coordinate pairs `a` and `b`, `calculateDistance a b`
equals `calculateDistance b a`, and for every point `a`,
`calculateDistance a a` equals `0`. -/
theorem calculateDistance_symm_and_self :
    (∀ lat1 lon1 lat2 lon2 : ℝ,
      calculateDistance lat1 lon1 lat2 lon2 = calculateDistance lat2 lon2 lat1 lon1) ∧
    (∀ lat lon : ℝ, calculateDistance lat lon lat lon = 0) :=
  ⟨calculateDistance_comm, calculateDistance_self⟩

/-- Claim C8: for every bounding box, if the transport request for state
vectors fails for any reason, or the response carries no `states` field,
`getStatesInArea` returns the empty list rather than propagating the error. -/
theorem getStatesInArea_failure_empty :
    (∀ e : String, getStatesInArea (.error e) = []) ∧
    getStatesInArea (.ok none) = [] :=
  ⟨fun _ => rfl, rfl⟩

/-- Claim C5 counterexample: a raw state vector whose longitude field is the
number 0 is parsed to `undefined` (`none`), not to `0`, because the source
uses the falsy-sensitive `state[5] || undefined`. -/
theorem parseAircraft_zero_counterexample :
    rawZeroLon.longitude = some 0 ∧ (parseAircraft rawZeroLon).longitude = none := by
  constructor
  · rfl
  · show jsNumOr (some 0) = none
    simp [jsNumOr]

/-- Claim C5 (amended): `parseAircraft` maps a numeric field (longitude,
latitude, barometric altitude, velocity) to unknown (`none`) exactly when the
raw field is absent, `null`, or the falsy number `0`; a raw field holding a
nonzero number is preserved. -/
theorem parseAircraft_falsy_to_unknown (state : RawState) :
    (((parseAircraft state).longitude = none ↔
        state.longitude = none ∨ state.longitude = some 0) ∧
      ∀ x : ℝ, x ≠ 0 → state.longitude = some x →
        (parseAircraft state).longitude = some x) ∧
    (((parseAircraft state).latitude = none ↔
        state.latitude = none ∨ state.latitude = some 0) ∧
      ∀ x : ℝ, x ≠ 0 → state.latitude = some x →
        (parseAircraft state).latitude = some x) ∧
    (((parseAircraft state).baro_altitude = none ↔
        state.baro_altitude = none ∨ state.baro_altitude = some 0) ∧
      ∀ x : ℝ, x ≠ 0 → state.baro_altitude = some x →
        (parseAircraft state).baro_altitude = some x) ∧
    (((parseAircraft state).velocity = none ↔
        state.velocity = none ∨ state.velocity = some 0) ∧
      ∀ x : ℝ, x ≠ 0 → state.velocity = some x →
        (parseAircraft state).velocity = some x) := by
  refine ⟨⟨jsNumOr_eq_none_iff _, ?_⟩, ⟨jsNumOr_eq_none_iff _, ?_⟩,
    ⟨jsNumOr_eq_none_iff _, ?_⟩, ⟨jsNumOr_eq_none_iff _, ?_⟩⟩ <;>
    intro x hx h <;> show jsNumOr _ = some x <;> rw [h] <;> exact jsNumOr_some hx

/-- Claim C5 (amended) witness: the nonzero longitude of `rawOne` is preserved
by parsing. -/
theorem parseAircraft_falsy_to_unknown_witness :
    (parseAircraft rawOne).longitude = some 1 :=
  (parseAircraft_falsy_to_unknown rawOne).1.2 1 one_ne_zero rfl

/-- Claim C10: an aircraft whose raw longitude or latitude field is exactly 0
is parsed as having no valid position, and is never an element of any
`getAircraftInRadius` result, regardless of the centre, radius, and fetched
list. -/
theorem zero_coordinate_excluded (state : RawState) (lat lon radiusKm : ℝ)
    (fetched : List Aircraft)
    (h : state.longitude = some 0 ∨ state.latitude = some 0) :
    ((parseAircraft state).longitude = none ∨ (parseAircraft state).latitude = none) ∧
    parseAircraft state ∉ getAircraftInRadius lat lon radiusKm fetched := by
  have hnone : (parseAircraft state).longitude = none ∨ (parseAircraft state).latitude = none := by
    rcases h with h | h
    · left; show jsNumOr _ = none; rw [h]; exact (jsNumOr_eq_none_iff _).mpr (Or.inr rfl)
    · right; show jsNumOr _ = none; rw [h]; exact (jsNumOr_eq_none_iff _).mpr (Or.inr rfl)
  refine ⟨hnone, fun hmem => ?_⟩
  exact inRadiusPred_of_none hnone.symm (mem_getAircraftInRadius.mp hmem).2

/-- Claim C10 witness: the concrete zero-longitude state vector is excluded
even when its parse is in the fetched list. -/
theorem zero_coordinate_excluded_witness :
    rawZeroLon.longitude = some 0 ∧
    parseAircraft rawZeroLon ∉ getAircraftInRadius 59 18 50 [parseAircraft rawZeroLon] :=
  ⟨rfl, (zero_coordinate_excluded rawZeroLon 59 18 50 [parseAircraft rawZeroLon]
    (Or.inl rfl)).2⟩

/-- Claim C2: every aircraft in a `getAircraftInRadius` result carries a valid
(truthy) position and lies within haversine distance `radiusKm` of the centre;
conversely an aircraft at true distance greater than the radius is excluded
even if the bounding-box fetch returned it. -/
theorem radius_query_sound (lat lon radiusKm : ℝ) (hr : 0 < radiusKm)
    (fetched : List Aircraft) (plane : Aircraft) :
    (plane ∈ getAircraftInRadius lat lon radiusKm fetched →
      (∃ a, plane.latitude = some a ∧ a ≠ 0) ∧
      (∃ b, plane.longitude = some b ∧ b ≠ 0) ∧
      ∀ a b, plane.latitude = some a → plane.longitude = some b →
        calculateDistance lat lon a b ≤ radiusKm) ∧
    (∀ a b, plane.latitude = some a → plane.longitude = some b →
      radiusKm < calculateDistance lat lon a b →
      plane ∉ getAircraftInRadius lat lon radiusKm fetched) := by
  constructor
  · intro hmem
    obtain ⟨-, plat, plon, hlat, hlon, hplat, hplon, hdist⟩ :=
      mem_getAircraftInRadius.mp hmem
    refine ⟨⟨plat, hlat, hplat⟩, ⟨plon, hlon, hplon⟩, fun a b ha hb => ?_⟩
    rw [ha] at hlat; rw [hb] at hlon
    cases Option.some_injective _ hlat
    cases Option.some_injective _ hlon
    exact hdist
  · intro a b ha hb hgt hmem
    obtain ⟨-, plat, plon, hlat, hlon, -, -, hdist⟩ := mem_getAircraftInRadius.mp hmem
    rw [ha] at hlat; rw [hb] at hlon
    cases Option.some_injective _ hlat
    cases Option.some_injective _ hlon
    exact absurd hdist (not_le.mpr hgt)

/-- Claim C2 witness: with centre (1, 1), radius 1, and a fetched list holding
`planeOne` at the centre itself, the returned aircraft satisfies the soundness
conclusion. -/
theorem radius_query_sound_witness :
    (0 : ℝ) < 1 ∧
    ((∃ a, planeOne.latitude = some a ∧ a ≠ 0) ∧
      (∃ b, planeOne.longitude = some b ∧ b ≠ 0) ∧
      ∀ a b, planeOne.latitude = some a → planeOne.longitude = some b →
        calculateDistance 1 1 a b ≤ 1) := by
  refine ⟨one_pos, (radius_query_sound 1 1 1 one_pos [planeOne] planeOne).1 ?_⟩
  refine mem_getAircraftInRadius.mpr ⟨List.mem_singleton_self _, 1, 1, rfl, rfl,
    one_ne_zero, one_ne_zero, ?_⟩
  rw [calculateDistance_self]
  exact zero_le_one

/-! # Resolver lemmas -/

theorem getInfo_of_cached (oracle : String → Option HexDBResponse) (icao : String)
    (cache : HexCache) (v : Option HexDBResponse) (h : alookup icao cache = some v) :
    getAircraftInfo oracle icao cache = (v, cache, 0) := by
  unfold getAircraftInfo
  rw [h]

theorem getInfo_of_miss (oracle : String → Option HexDBResponse) (icao : String)
    (cache : HexCache) (h : alookup icao cache = none) :
    getAircraftInfo oracle icao cache = (oracle icao, (icao, oracle icao) :: cache, 1) := by
  unfold getAircraftInfo
  rw [h]

theorem alookup_after_getInfo (oracle : String → Option HexDBResponse) (y x : String)
    (cache : HexCache) (v : Option HexDBResponse) (h : alookup x cache = some v) :
    alookup x (getAircraftInfo oracle y cache).2.1 = some v := by
  cases hy : alookup y cache with
  | some w => rw [getInfo_of_cached oracle y cache w hy]; exact h
  | none =>
    rw [getInfo_of_miss oracle y cache hy]
    by_cases hxy : x = y
    · subst hxy; rw [h] at hy; exact Option.noConfusion hy
    · show (if x = y then some (oracle y) else alookup x cache) = some v
      rw [if_neg hxy, h]

theorem getInfo_caches (oracle : String → Option HexDBResponse) (icao : String)
    (cache : HexCache) :
    alookup icao (getAircraftInfo oracle icao cache).2.1 =
      some ((getAircraftInfo oracle icao cache).1) := by
  cases h : alookup icao cache with
  | some w => rw [getInfo_of_cached oracle icao cache w h]; exact h
  | none =>
    rw [getInfo_of_miss oracle icao cache h]
    show (if icao = icao then some (oracle icao) else alookup icao cache) = some (oracle icao)
    rw [if_pos rfl]

theorem getInfo_result_stable (oracle : String → Option HexDBResponse) (x y : String)
    (cache : HexCache) :
    (getAircraftInfo oracle x (getAircraftInfo oracle y cache).2.1).1 =
      (getAircraftInfo oracle x cache).1 := by
  cases hy : alookup y cache with
  | some w => rw [getInfo_of_cached oracle y cache w hy]
  | none =>
    rw [getInfo_of_miss oracle y cache hy]
    by_cases hxy : x = y
    · subst hxy
      have h1 : alookup x ((x, oracle x) :: cache) = some (oracle x) := by
        show (if x = x then some (oracle x) else alookup x cache) = some (oracle x)
        rw [if_pos rfl]
      rw [getInfo_of_cached oracle x _ _ h1, getInfo_of_miss oracle x cache hy]
    · have h1 : alookup x ((y, oracle y) :: cache) = alookup x cache := by
        show (if x = y then some (oracle y) else alookup x cache) = alookup x cache
        rw [if_neg hxy]
      unfold getAircraftInfo
      rw [h1]
      cases alookup x cache <;> rfl

theorem fetchCountFor_zero_of_cached (oracle : String → Option HexDBResponse)
    (calls : List String) :
    ∀ (cache : HexCache) (target : String) (v : Option HexDBResponse),
      alookup target cache = some v → fetchCountFor oracle calls cache target = 0 := by
  induction calls with
  | nil => intro cache target v _; rfl
  | cons id rest ih =>
    intro cache target v hv
    have hrest : fetchCountFor oracle rest (getAircraftInfo oracle id cache).2.1 target = 0 :=
      ih _ _ v (alookup_after_getInfo oracle id target cache v hv)
    show (if id = target then (getAircraftInfo oracle id cache).2.2 else 0) +
        fetchCountFor oracle rest (getAircraftInfo oracle id cache).2.1 target = 0
    rw [hrest, Nat.add_zero]
    by_cases hid : id = target
    · subst hid
      rw [getInfo_of_cached oracle id cache v hv, if_pos rfl]
    · rw [if_neg hid]

theorem fetchCountFor_le_one (oracle : String → Option HexDBResponse)
    (calls : List String) :
    ∀ (cache : HexCache) (target : String), fetchCountFor oracle calls cache target ≤ 1 := by
  induction calls with
  | nil => intro cache target; exact Nat.zero_le 1
  | cons id rest ih =>
    intro cache target
    show (if id = target then (getAircraftInfo oracle id cache).2.2 else 0) +
        fetchCountFor oracle rest (getAircraftInfo oracle id cache).2.1 target ≤ 1
    by_cases hid : id = target
    · subst hid
      cases hv : alookup id cache with
      | some v =>
        rw [fetchCountFor_zero_of_cached oracle rest _ id v
          (alookup_after_getInfo oracle id id cache v hv)]
        rw [getInfo_of_cached oracle id cache v hv, if_pos rfl]
        exact Nat.zero_le 1
      | none =>
        rw [getInfo_of_miss oracle id cache hv, if_pos rfl]
        have hcached : alookup id ((id, oracle id) :: cache) = some (oracle id) := by
          show (if id = id then some (oracle id) else alookup id cache) = some (oracle id)
          rw [if_pos rfl]
        rw [fetchCountFor_zero_of_cached oracle rest _ id (oracle id) hcached]
    · rw [if_neg hid, Nat.zero_add]
      exact ih _ _

theorem runBatch_append (oracle : String → Option HexDBResponse) (a b : List String) :
    ∀ (cache : HexCache) (results : List (String × Option HexDBResponse)),
      runBatch oracle (a ++ b) cache results =
        runBatch oracle b (runBatch oracle a cache results).1
          (runBatch oracle a cache results).2 := by
  induction a with
  | nil => intro cache results; rfl
  | cons id rest ih => intro cache results; exact ih _ _

theorem runChunks_eq_runBatch_join (oracle : String → Option HexDBResponse)
    (bs : List (List String)) :
    ∀ (cache : HexCache) (results : List (String × Option HexDBResponse)),
      runChunks oracle bs cache results = runBatch oracle bs.flatten cache results := by
  induction bs with
  | nil => intro cache results; rfl
  | cons b rest ih =>
    intro cache results
    show runChunks oracle rest (runBatch oracle b cache results).1
        (runBatch oracle b cache results).2 = runBatch oracle (b ++ rest.flatten) cache results
    rw [runBatch_append, ih]

theorem chunkAux_join : ∀ (fuel : Nat) (l : List String), l.length ≤ fuel →
    (chunkAux fuel l).flatten = l := by
  intro fuel
  induction fuel with
  | zero =>
    intro l h
    cases l with
    | nil => rfl
    | cons a t => exact absurd h (by simp)
  | succ n ih =>
    intro l h
    cases l with
    | nil => rfl
    | cons a t =>
      show ((a :: t).take 10 ++ (chunkAux n ((a :: t).drop 10)).flatten) = a :: t
      rw [ih ((a :: t).drop 10) (by simp only [List.length_drop, List.length_cons] at h ⊢; omega)]
      exact List.take_append_drop 10 (a :: t)

theorem getMultipleAircraftInfo_eq_runBatch (oracle : String → Option HexDBResponse)
    (ids : List String) (cache : HexCache) :
    getMultipleAircraftInfo oracle ids cache = runBatch oracle ids cache [] := by
  unfold getMultipleAircraftInfo
  rw [runChunks_eq_runBatch_join, chunkAux_join _ _ le_rfl]

theorem getInfo_result_stable_batch (oracle : String → Option HexDBResponse)
    (ids : List String) (x : String) :
    ∀ (cache : HexCache) (results : List (String × Option HexDBResponse)),
      (getAircraftInfo oracle x (runBatch oracle ids cache results).1).1 =
        (getAircraftInfo oracle x cache).1 := by
  induction ids with
  | nil => intro cache results; rfl
  | cons id rest ih =>
    intro cache results
    show (getAircraftInfo oracle x
        (runBatch oracle rest (getAircraftInfo oracle id cache).2.1
          ((id, (getAircraftInfo oracle id cache).1) :: results)).1).1 =
      (getAircraftInfo oracle x cache).1
    rw [ih, getInfo_result_stable]

theorem runBatch_lookup_of_not_mem (oracle : String → Option HexDBResponse)
    (ids : List String) (x : String) :
    ∀ (cache : HexCache) (results : List (String × Option HexDBResponse)), x ∉ ids →
      alookup x (runBatch oracle ids cache results).2 = alookup x results := by
  induction ids with
  | nil => intro cache results _; rfl
  | cons id rest ih =>
    intro cache results hx
    have hxid : x ≠ id := fun h => hx (h ▸ List.mem_cons_self id rest)
    have hxr : x ∉ rest := fun h => hx (List.mem_cons_of_mem id h)
    show alookup x (runBatch oracle rest (getAircraftInfo oracle id cache).2.1
        ((id, (getAircraftInfo oracle id cache).1) :: results)).2 = alookup x results
    rw [ih _ _ hxr]
    show (if x = id then some ((getAircraftInfo oracle id cache).1)
        else alookup x results) = alookup x results
    rw [if_neg hxid]

theorem runBatch_lookup_of_mem (oracle : String → Option HexDBResponse)
    (ids : List String) (x : String) :
    ∀ (cache : HexCache) (results : List (String × Option HexDBResponse)), x ∈ ids →
      alookup x (runBatch oracle ids cache results).2 =
        some ((getAircraftInfo oracle x cache).1) := by
  induction ids with
  | nil => intro cache results h; exact absurd h (List.not_mem_nil x)
  | cons id rest ih =>
    intro cache results h
    show alookup x (runBatch oracle rest (getAircraftInfo oracle id cache).2.1
        ((id, (getAircraftInfo oracle id cache).1) :: results)).2 =
      some ((getAircraftInfo oracle x cache).1)
    by_cases hxr : x ∈ rest
    · rw [ih _ _ hxr, getInfo_result_stable]
    · have hxid : x = id := by
        rcases List.mem_cons.mp h with h' | h'
        · exact h'
        · exact absurd h' hxr
      subst hxid
      rw [runBatch_lookup_of_not_mem oracle rest x _ _ hxr]
      show (if x = x then some ((getAircraftInfo oracle x cache).1)
          else alookup x results) = some ((getAircraftInfo oracle x cache).1)
      rw [if_pos rfl]

theorem alookup_mem {β : Type} (k : String) (v : β) :
    ∀ (l : List (String × β)), alookup k l = some v → (k, v) ∈ l := by
  intro l
  induction l with
  | nil => intro h; exact Option.noConfusion h
  | cons p rest ih =>
    obtain ⟨a, b⟩ := p
    intro h
    by_cases hk : k = a
    · subst hk
      have hb : some b = some v := by
        rw [show alookup k ((k, b) :: rest) =
          (if k = k then some b else alookup k rest) from rfl, if_pos rfl] at h
        exact h
      cases Option.some_injective _ hb
      exact List.mem_cons_self _ _
    · have h' : alookup k rest = some v := by
        rw [show alookup k ((a, b) :: rest) =
          (if k = a then some b else alookup k rest) from rfl, if_neg hk] at h
        exact h
      exact List.mem_cons_of_mem _ (ih h')

set_option maxRecDepth 40000 in
theorem typeMap_values_are_model_keys :
    ∀ p ∈ typeMap, (alookup p.2 AIRCRAFT_MODELS).isSome = true := by decide

/-! # Claim theorems (resolver) -/

/-- Claim C4: for every sequence of awaited `getAircraftInfo` calls starting
from any cache state, at most one network fetch is ever issued for a given
identifier; a second call for the same identifier returns the first call's
record with zero fetches; and a cached negative (`null`) is returned as-is,
with no fetch and no cache change. -/
theorem resolve_cached_once (oracle : String → Option HexDBResponse)
    (calls : List String) (icao : String) (cache : HexCache) :
    fetchCountFor oracle calls cache icao ≤ 1 ∧
    ((getAircraftInfo oracle icao (getAircraftInfo oracle icao cache).2.1).1 =
        (getAircraftInfo oracle icao cache).1 ∧
      (getAircraftInfo oracle icao (getAircraftInfo oracle icao cache).2.1).2.2 = 0) ∧
    (alookup icao cache = some none →
      getAircraftInfo oracle icao cache = (none, cache, 0)) := by
  refine ⟨fetchCountFor_le_one oracle calls cache icao, ⟨?_, ?_⟩, ?_⟩
  · rw [getInfo_of_cached oracle icao _ _ (getInfo_caches oracle icao cache)]
  · rw [getInfo_of_cached oracle icao _ _ (getInfo_caches oracle icao cache)]
  · intro h
    exact getInfo_of_cached oracle icao cache none h

/-- Claim C4 witness: with a cache already holding a negative entry for
`"4ca1d9"`, the call returns `none` without fetching or touching the cache. -/
theorem resolve_cached_once_witness :
    alookup "4ca1d9" [("4ca1d9", (none : Option HexDBResponse))] = some none ∧
    getAircraftInfo (fun _ => none) "4ca1d9" [("4ca1d9", none)] =
      (none, [("4ca1d9", none)], 0) :=
  ⟨by decide, (resolve_cached_once (fun _ => none) [] "4ca1d9"
    [("4ca1d9", none)]).2.2 (by decide)⟩

/-- Claim C7: `getMultipleAircraftInfo` (which walks the identifier list in
fixed chunks of 10) returns a map whose keys are exactly the input
identifiers, and every identifier maps to the very record a standalone
`getAircraftInfo` call from the same starting cache returns. -/
theorem batch_refines_pointwise (oracle : String → Option HexDBResponse)
    (icao24List : List String) (cache : HexCache) :
    (∀ x, (alookup x (getMultipleAircraftInfo oracle icao24List cache).2).isSome = true ↔
        x ∈ icao24List) ∧
    (∀ x, x ∈ icao24List →
      alookup x (getMultipleAircraftInfo oracle icao24List cache).2 =
        some ((getAircraftInfo oracle x cache).1)) := by
  rw [getMultipleAircraftInfo_eq_runBatch]
  constructor
  · intro x
    constructor
    · intro h
      by_contra hx
      rw [runBatch_lookup_of_not_mem oracle icao24List x cache [] hx] at h
      exact Bool.noConfusion h
    · intro hx
      rw [runBatch_lookup_of_mem oracle icao24List x cache [] hx]
      rfl
  · intro x hx
    exact runBatch_lookup_of_mem oracle icao24List x cache [] hx

/-- Claim C7 witness: a two-element batch resolves `"4ca1d2"` to exactly the
standalone result. -/
theorem batch_refines_pointwise_witness :
    alookup "4ca1d2" (getMultipleAircraftInfo (fun _ => none) ["4ca1d2", "4ca1d3"] []).2 =
      some ((getAircraftInfo (fun _ => none) "4ca1d2" []).1) :=
  (batch_refines_pointwise (fun _ => none) ["4ca1d2", "4ca1d3"] []).2 "4ca1d2"
    (List.mem_cons_self _ _)

/-- Claim C9: every model key `mapTypeToModel` can return is a key of the
`AIRCRAFT_MODELS` record, so the display-name lookup
`AIRCRAFT_MODELS[matchedModel].name` performed when an alert fires is always
defined. -/
theorem mapTypeToModel_total (typeCode : Option String) (m : String)
    (h : mapTypeToModel typeCode = some m) :
    (alookup m AIRCRAFT_MODELS).isSome = true := by
  cases typeCode with
  | none => exact Option.noConfusion h
  | some code =>
    simp only [mapTypeToModel] at h
    by_cases hc : code = ""
    · rw [if_pos hc] at h; exact Option.noConfusion h
    · rw [if_neg hc] at h
      cases hv : alookup code typeMap with
      | none => rw [hv] at h; exact Option.noConfusion h
      | some v =>
        rw [hv] at h
        change (if v = "" then none else some v) = some m at h
        by_cases hv' : v = ""
        · rw [if_pos hv'] at h; exact Option.noConfusion h
        · rw [if_neg hv'] at h
          cases Option.some_injective _ h
          exact typeMap_values_are_model_keys (code, m) (alookup_mem code m typeMap hv)

/-- Claim C9 witness: the type code `B738` resolves to model key `B737`,
which is a key of `AIRCRAFT_MODELS`. -/
theorem mapTypeToModel_total_witness :
    mapTypeToModel (some "B738") = some "B737" ∧
    (alookup "B737" AIRCRAFT_MODELS).isSome = true :=
  ⟨by decide, mapTypeToModel_total (some "B738") "B737" (by decide)⟩

/-! # Alert-engine lemmas -/

theorem okNotify_true (x : String) : okNotify x = true := rfl

theorem mem_insertId (x y : String) (l : List String) :
    y ∈ insertId x l ↔ y = x ∨ y ∈ l := by
  unfold insertId
  by_cases h : x ∈ l
  · rw [if_pos h]
    constructor
    · exact Or.inr
    · rintro (rfl | hy)
      · exact h
      · exact hy
  · rw [if_neg h]
    exact List.mem_cons

theorem loopPlanes_cons (prev : List String) (notify : String → Bool)
    (p : PollAircraft) (rest : List PollAircraft) (c a n : List String) :
    loopPlanes prev notify (p :: rest) c a n =
      if p.hasPos = true then
        if p.«matches» = true ∧ p.icao24 ∉ prev ∧ p.icao24 ∉ a then
          if notify p.icao24 = true then
            loopPlanes prev notify rest (insertId p.icao24 c) (insertId p.icao24 a)
              (n ++ [p.icao24])
          else ⟨false, insertId p.icao24 c, insertId p.icao24 a, n⟩
        else loopPlanes prev notify rest (insertId p.icao24 c) a n
      else loopPlanes prev notify rest c a n := rfl

theorem loopPlanes_ok (prev : List String) (planes : List PollAircraft) :
    ∀ c a n, (loopPlanes prev okNotify planes c a n).ok = true := by
  induction planes with
  | nil => intro c a n; rfl
  | cons p rest ih =>
    intro c a n
    rw [loopPlanes_cons]
    by_cases hpos : p.hasPos = true
    · rw [if_pos hpos]
      by_cases hguard : p.«matches» = true ∧ p.icao24 ∉ prev ∧ p.icao24 ∉ a
      · rw [if_pos hguard, if_pos (okNotify_true p.icao24)]
        exact ih _ _ _
      · rw [if_neg hguard]
        exact ih _ _ _
    · rw [if_neg hpos]
      exact ih _ _ _

theorem loopPlanes_alerted_mono (prev : List String) (planes : List PollAircraft) :
    ∀ c a n (x : String), x ∈ a →
      x ∈ (loopPlanes prev okNotify planes c a n).alerted := by
  induction planes with
  | nil => intro c a n x hx; exact hx
  | cons p rest ih =>
    intro c a n x hx
    rw [loopPlanes_cons]
    by_cases hpos : p.hasPos = true
    · rw [if_pos hpos]
      by_cases hguard : p.«matches» = true ∧ p.icao24 ∉ prev ∧ p.icao24 ∉ a
      · rw [if_pos hguard, if_pos (okNotify_true p.icao24)]
        exact ih _ _ _ x ((mem_insertId _ _ _).mpr (Or.inr hx))
      · rw [if_neg hguard]
        exact ih _ _ _ x hx
    · rw [if_neg hpos]
      exact ih _ _ _ x hx

theorem loopPlanes_count_of_alerted (prev : List String) (planes : List PollAircraft) :
    ∀ c a n (x : String), x ∈ a →
      ((loopPlanes prev okNotify planes c a n).notifs).count x = n.count x := by
  induction planes with
  | nil => intro c a n x _; rfl
  | cons p rest ih =>
    intro c a n x hx
    rw [loopPlanes_cons]
    by_cases hpos : p.hasPos = true
    · rw [if_pos hpos]
      by_cases hguard : p.«matches» = true ∧ p.icao24 ∉ prev ∧ p.icao24 ∉ a
      · rw [if_pos hguard, if_pos (okNotify_true p.icao24)]
        have hne : x ∉ [p.icao24] := by
          intro hmem
          rcases List.mem_singleton.mp hmem with rfl
          exact hguard.2.2 hx
        rw [ih _ _ _ x ((mem_insertId _ _ _).mpr (Or.inr hx)), List.count_append,
          List.count_eq_zero.mpr hne, Nat.add_zero]
      · rw [if_neg hguard]
        exact ih _ _ _ x hx
    · rw [if_neg hpos]
      exact ih _ _ _ x hx

theorem loopPlanes_count_of_new (prev : List String) (planes : List PollAircraft) :
    ∀ c a n (x : String), x ∉ prev → x ∉ a →
      (∃ p ∈ planes, p.icao24 = x ∧ p.hasPos = true ∧ p.«matches» = true) →
      ((loopPlanes prev okNotify planes c a n).notifs).count x = n.count x + 1 := by
  induction planes with
  | nil =>
    intro c a n x _ _ hex
    obtain ⟨p, hp, -⟩ := hex
    exact absurd hp (List.not_mem_nil p)
  | cons p rest ih =>
    intro c a n x hprev ha hex
    rw [loopPlanes_cons]
    by_cases hx : p.icao24 = x
    · by_cases hpos : p.hasPos = true
      · by_cases hm : p.«matches» = true
        · have hguard : p.«matches» = true ∧ p.icao24 ∉ prev ∧ p.icao24 ∉ a :=
            ⟨hm, hx ▸ hprev, hx ▸ ha⟩
          rw [if_pos hpos, if_pos hguard, if_pos (okNotify_true p.icao24)]
          have hxa' : x ∈ insertId p.icao24 a := (mem_insertId _ _ _).mpr (Or.inl hx.symm)
          rw [loopPlanes_count_of_alerted prev rest _ _ _ x hxa', List.count_append]
          have : (List.count x [p.icao24]) = 1 := by
            rw [hx]
            simp
          rw [this]
        · rw [if_pos hpos]
          have hguard : ¬ (p.«matches» = true ∧ p.icao24 ∉ prev ∧ p.icao24 ∉ a) :=
            fun hg => hm hg.1
          rw [if_neg hguard]
          refine ih _ _ _ x hprev ha ?_
          obtain ⟨q, hq, hqx, hqpos, hqm⟩ := hex
          rcases List.mem_cons.mp hq with rfl | hq'
          · exact absurd hqm hm
          · exact ⟨q, hq', hqx, hqpos, hqm⟩
      · rw [if_neg hpos]
        refine ih _ _ _ x hprev ha ?_
        obtain ⟨q, hq, hqx, hqpos, hqm⟩ := hex
        rcases List.mem_cons.mp hq with rfl | hq'
        · exact absurd hqpos hpos
        · exact ⟨q, hq', hqx, hqpos, hqm⟩
    · have hrest : ∃ q ∈ rest, q.icao24 = x ∧ q.hasPos = true ∧ q.«matches» = true := by
        obtain ⟨q, hq, hqx, hqpos, hqm⟩ := hex
        rcases List.mem_cons.mp hq with rfl | hq'
        · exact absurd hqx hx
        · exact ⟨q, hq', hqx, hqpos, hqm⟩
      by_cases hpos : p.hasPos = true
      · rw [if_pos hpos]
        by_cases hguard : p.«matches» = true ∧ p.icao24 ∉ prev ∧ p.icao24 ∉ a
        · rw [if_pos hguard, if_pos (okNotify_true p.icao24)]
          have ha' : x ∉ insertId p.icao24 a := by
            intro hmem
            rcases (mem_insertId _ _ _).mp hmem with h' | h'
            · exact hx h'.symm
            · exact ha h'
          rw [ih _ _ _ x hprev ha' hrest, List.count_append]
          have hz : (List.count x [p.icao24]) = 0 :=
            List.count_eq_zero.mpr (fun hmem => hx (List.mem_singleton.mp hmem).symm)
          rw [hz, Nat.add_zero]
        · rw [if_neg hguard]
          exact ih _ _ _ x hprev ha hrest
      · rw [if_neg hpos]
        exact ih _ _ _ x hprev ha hrest

theorem loopPlanes_mem_current (prev : List String) (planes : List PollAircraft) :
    ∀ c a n (x : String),
      x ∈ (loopPlanes prev okNotify planes c a n).current ↔
        x ∈ c ∨ ∃ p ∈ planes, p.icao24 = x ∧ p.hasPos = true := by
  induction planes with
  | nil =>
    intro c a n x
    constructor
    · exact Or.inl
    · rintro (hc | ⟨p, hp, -⟩)
      · exact hc
      · exact absurd hp (List.not_mem_nil p)
  | cons p rest ih =>
    intro c a n x
    rw [loopPlanes_cons]
    by_cases hpos : p.hasPos = true
    · have step : ∀ a' n',
          (x ∈ (loopPlanes prev okNotify rest (insertId p.icao24 c) a' n').current ↔
            x ∈ c ∨ ∃ q ∈ p :: rest, q.icao24 = x ∧ q.hasPos = true) := by
        intro a' n'
        rw [ih]
        constructor
        · rintro (hc | hex)
          · rcases (mem_insertId _ _ _).mp hc with rfl | hc'
            · exact Or.inr ⟨p, List.mem_cons_self _ _, rfl, hpos⟩
            · exact Or.inl hc'
          · obtain ⟨q, hq, hqx, hqpos⟩ := hex
            exact Or.inr ⟨q, List.mem_cons_of_mem _ hq, hqx, hqpos⟩
        · rintro (hc | ⟨q, hq, hqx, hqpos⟩)
          · exact Or.inl ((mem_insertId _ _ _).mpr (Or.inr hc))
          · rcases List.mem_cons.mp hq with rfl | hq'
            · exact Or.inl ((mem_insertId _ _ _).mpr (Or.inl hqx.symm))
            · exact Or.inr ⟨q, hq', hqx, hqpos⟩
      rw [if_pos hpos]
      by_cases hguard : p.«matches» = true ∧ p.icao24 ∉ prev ∧ p.icao24 ∉ a
      · rw [if_pos hguard, if_pos (okNotify_true p.icao24)]
        exact step _ _
      · rw [if_neg hguard]
        exact step _ _
    · rw [if_neg hpos, ih]
      constructor
      · rintro (hc | ⟨q, hq, hqx, hqpos⟩)
        · exact Or.inl hc
        · exact Or.inr ⟨q, List.mem_cons_of_mem _ hq, hqx, hqpos⟩
      · rintro (hc | ⟨q, hq, hqx, hqpos⟩)
        · exact Or.inl hc
        · rcases List.mem_cons.mp hq with rfl | hq'
          · exact absurd hqpos hpos
          · exact Or.inr ⟨q, hq', hqx, hqpos⟩

theorem fetchAircraft_ok_eq (notify : String → Bool) (planes : List PollAircraft)
    (st : TrackerState)
    (h : (loopPlanes st.previousAircraft notify planes [] st.alertedAircraft []).ok = true) :
    fetchAircraft notify (.ok planes) st =
      ⟨⟨(loopPlanes st.previousAircraft notify planes [] st.alertedAircraft []).current,
        (loopPlanes st.previousAircraft notify planes [] st.alertedAircraft []).alerted.filter
          (fun i =>
            i ∈ (loopPlanes st.previousAircraft notify planes [] st.alertedAircraft []).current)⟩,
        (loopPlanes st.previousAircraft notify planes [] st.alertedAircraft []).notifs,
        none⟩ := by
  simp only [fetchAircraft]
  rw [if_pos h]

theorem pollStep_parts (planes : List PollAircraft) (st : TrackerState) :
    (pollStep planes st).state.previousAircraft =
      (loopPlanes st.previousAircraft okNotify planes [] st.alertedAircraft []).current ∧
    (pollStep planes st).state.alertedAircraft =
      (loopPlanes st.previousAircraft okNotify planes [] st.alertedAircraft []).alerted.filter
        (fun i =>
          i ∈ (loopPlanes st.previousAircraft okNotify planes [] st.alertedAircraft []).current) ∧
    (pollStep planes st).notifications =
      (loopPlanes st.previousAircraft okNotify planes [] st.alertedAircraft []).notifs := by
  unfold pollStep
  rw [fetchAircraft_ok_eq okNotify planes st (loopPlanes_ok _ _ _ _ _)]
  exact ⟨rfl, rfl, rfl⟩

theorem runPolls_cons (poll : List PollAircraft) (rest : List (List PollAircraft))
    (st : TrackerState) :
    runPolls (poll :: rest) st =
      ((runPolls rest (pollStep poll st).state).1,
        (pollStep poll st).notifications :: (runPolls rest (pollStep poll st).state).2) := rfl

theorem pollStep_alerted_iff (planes : List PollAircraft) (st : TrackerState) (x : String) :
    x ∈ (pollStep planes st).state.alertedAircraft ↔
      x ∈ (loopPlanes st.previousAircraft okNotify planes [] st.alertedAircraft []).alerted ∧
      x ∈ (loopPlanes st.previousAircraft okNotify planes [] st.alertedAircraft []).current := by
  rw [(pollStep_parts planes st).2.1, List.mem_filter, decide_eq_true_eq]

theorem pollStep_keeps_alerted (planes : List PollAircraft) (st : TrackerState) (x : String)
    (hx : x ∈ st.alertedAircraft) (hpres : presentWithPos x planes) :
    x ∉ (pollStep planes st).notifications ∧
    x ∈ (pollStep planes st).state.alertedAircraft := by
  constructor
  · rw [(pollStep_parts planes st).2.2]
    intro hmem
    have h0 := loopPlanes_count_of_alerted st.previousAircraft planes [] st.alertedAircraft [] x hx
    rw [List.count_nil] at h0
    exact (List.count_eq_zero.mp h0) hmem
  · rw [pollStep_alerted_iff]
    refine ⟨loopPlanes_alerted_mono _ _ _ _ _ _ hx, ?_⟩
    rw [loopPlanes_mem_current]
    right
    obtain ⟨p, hp, hpx, hppos⟩ := hpres
    exact ⟨p, hp, hpx, hppos⟩

theorem pollStep_new_notified (planes : List PollAircraft) (st : TrackerState) (x : String)
    (hwf : ∀ y ∈ st.alertedAircraft, y ∈ st.previousAircraft)
    (hprev : x ∉ st.previousAircraft) (hpres : presentMatching x planes) :
    ((pollStep planes st).notifications).count x = 1 := by
  have ha : x ∉ st.alertedAircraft := fun hx => hprev (hwf x hx)
  rw [(pollStep_parts planes st).2.2]
  have := loopPlanes_count_of_new st.previousAircraft planes [] st.alertedAircraft [] x
    hprev ha hpres
  rw [List.count_nil] at this
  exact this

theorem pollStep_absent_reset (planes : List PollAircraft) (st : TrackerState) (x : String)
    (habs : ¬ presentWithPos x planes) :
    x ∉ (pollStep planes st).state.previousAircraft ∧
    x ∉ (pollStep planes st).state.alertedAircraft := by
  have hcur : x ∉ (loopPlanes st.previousAircraft okNotify planes [] st.alertedAircraft []).current := by
    rw [loopPlanes_mem_current]
    rintro (hc | hex)
    · exact absurd hc (List.not_mem_nil x)
    · exact habs hex
  constructor
  · rw [(pollStep_parts planes st).1]
    exact hcur
  · rw [pollStep_alerted_iff]
    exact fun h => hcur h.2

theorem pollStep_wf (planes : List PollAircraft) (st : TrackerState) :
    ∀ y ∈ (pollStep planes st).state.alertedAircraft,
      y ∈ (pollStep planes st).state.previousAircraft := by
  intro y hy
  rw [(pollStep_parts planes st).1]
  exact ((pollStep_alerted_iff planes st y).mp hy).2

theorem runPolls_no_renotify (polls : List (List PollAircraft)) :
    ∀ (st : TrackerState) (x : String), x ∈ st.alertedAircraft →
      (∀ poll ∈ polls, presentWithPos x poll) →
      ∀ ns ∈ (runPolls polls st).2, x ∉ ns := by
  induction polls with
  | nil =>
    intro st x _ _ ns hns
    exact absurd hns (List.not_mem_nil ns)
  | cons poll rest ih =>
    intro st x hx hall ns hns
    have hstep := pollStep_keeps_alerted poll st x hx (hall poll (List.mem_cons_self _ _))
    rw [runPolls_cons] at hns
    rcases List.mem_cons.mp hns with rfl | hns'
    · exact hstep.1
    · exact ih (pollStep poll st).state x hstep.2
        (fun q hq => hall q (List.mem_cons_of_mem _ hq)) ns hns'

/-! # Claim theorems (alert engine) -/

/-- Claim C1: from any state whose alerted set is inside the presence set (as
maintained by the engine), (a) an identifier already in the alerted set that
keeps appearing with a valid position in every subsequent poll never occurs in
any notification batch; (b) an identifier absent from the previous poll's
presence set that appears matching the watchlist fires exactly one
notification in that cycle; (c) an identifier absent from a poll's aircraft
list is dropped from both the presence set and the alerted set, resetting
alert eligibility; and (d) the alerted-inside-presence invariant is preserved
by every cycle. -/
theorem alert_once_per_visit (st : TrackerState)
    (hwf : ∀ y ∈ st.alertedAircraft, y ∈ st.previousAircraft) :
    (∀ (icao : String) (polls : List (List PollAircraft)), icao ∈ st.alertedAircraft →
      (∀ poll ∈ polls, presentWithPos icao poll) →
      ∀ ns ∈ (runPolls polls st).2, icao ∉ ns) ∧
    (∀ (icao : String) (poll : List PollAircraft), icao ∉ st.previousAircraft →
      presentMatching icao poll →
      ((pollStep poll st).notifications).count icao = 1) ∧
    (∀ (icao : String) (poll : List PollAircraft), ¬ presentWithPos icao poll →
      icao ∉ (pollStep poll st).state.previousAircraft ∧
      icao ∉ (pollStep poll st).state.alertedAircraft) ∧
    (∀ poll : List PollAircraft, ∀ y ∈ (pollStep poll st).state.alertedAircraft,
      y ∈ (pollStep poll st).state.previousAircraft) :=
  ⟨fun icao polls hic hall => runPolls_no_renotify polls st icao hic hall,
    fun icao poll hprev hpres => pollStep_new_notified poll st icao hwf hprev hpres,
    fun icao poll habs => pollStep_absent_reset poll st icao habs,
    fun poll => pollStep_wf poll st⟩

/-- Claim C1 witness: with `aaa111` already present and alerted, a matching
new aircraft `bbb222` fires exactly one notification in the next cycle. -/
theorem alert_once_per_visit_witness :
    (∀ y ∈ (["aaa111"] : List String), y ∈ (["aaa111"] : List String)) ∧
    ((pollStep [⟨"bbb222", true, true⟩] ⟨["aaa111"], ["aaa111"]⟩).notifications).count
      "bbb222" = 1 :=
  ⟨by decide,
    (alert_once_per_visit ⟨["aaa111"], ["aaa111"]⟩ (by decide)).2.1 "bbb222"
      [⟨"bbb222", true, true⟩] (by decide) ⟨⟨"bbb222", true, true⟩,
        List.mem_cons_self _ _, rfl, rfl, rfl⟩⟩

/-- A notification sink that throws on every call (models `toast.success` or
the `Notification` constructor raising inside the per-aircraft loop). -/
def badNotify : String → Bool := fun _ => false

/-- Claim C3 counterexample: with an empty initial state, one matching
aircraft, and a notification sink that throws, the cycle ends with a surfaced
error message, yet the alerted set has changed — `alertedAircraftRef.current.add`
on line 77 of `use-flight-tracker.ts` runs before the sink call on line 80 and
the `catch` does not roll it back.  So a poll cycle in which an error is
thrown can change the alerted set, contradicting the claim. -/
theorem poll_failure_counterexample :
    ((fetchAircraft badNotify (.ok [⟨"ccc333", true, true⟩]) ⟨[], []⟩).errorMsg).isSome
        = true ∧
    (fetchAircraft badNotify (.ok [⟨"ccc333", true, true⟩]) ⟨[], []⟩).state.alertedAircraft ≠
      (⟨[], []⟩ : TrackerState).alertedAircraft := by
  constructor
  · rfl
  · intro h
    exact List.noConfusion h

/-- Claim C3 (amended): any error thrown during a poll cycle is caught and
surfaced as a transient error message, and the previous-presence set is never
changed by a failed cycle (the next successful poll continues from the last
known-good presence set); a fetch-phase failure additionally leaves the
alerted set and the notification batch untouched, but an error thrown by the
notification sink after an alert was recorded can leave that identifier in
the alerted set. -/
theorem poll_failure_atomicity_amended (notify : String → Bool) (st : TrackerState) :
    (∀ msg : String, fetchAircraft notify (.error msg) st =
      ⟨st, [], some msg⟩) ∧
    (∀ fetchResult : Except String (List PollAircraft),
      ((fetchAircraft notify fetchResult st).errorMsg).isSome = true →
      (fetchAircraft notify fetchResult st).state.previousAircraft =
        st.previousAircraft) := by
  constructor
  · intro msg; rfl
  · intro fetchResult h
    cases fetchResult with
    | error msg => rfl
    | ok planes =>
      simp only [fetchAircraft] at h ⊢
      by_cases hok :
          (loopPlanes st.previousAircraft notify planes [] st.alertedAircraft []).ok = true
      · rw [if_pos hok] at h
        exact absurd h (by simp)
      · rw [if_neg hok]

/-- Claim C3 (amended) witness: a cycle aborted by a throwing sink surfaces an
error and leaves the previous-presence set untouched. -/
theorem poll_failure_atomicity_amended_witness :
    ((fetchAircraft badNotify (.ok [⟨"ddd444", true, true⟩]) ⟨["eee555"], []⟩).errorMsg).isSome
        = true ∧
    (fetchAircraft badNotify (.ok [⟨"ddd444", true, true⟩]) ⟨["eee555"], []⟩).state.previousAircraft
        = ["eee555"] :=
  ⟨by decide,
    (poll_failure_atomicity_amended badNotify ⟨["eee555"], []⟩).2
      (.ok [⟨"ddd444", true, true⟩]) (by decide)⟩

end FlightAlert
